import Mathlib

/-!
Verification of the incident classification and rendering pipeline of the
`einsatz-monitor-card` Home Assistant custom card
(`custom_components/einsatz_monitor/www/einsatz-monitor-card.js`).

The card's three functions with logic — `_formatTime`, `_getTypeInfo` and
`_render` — are shallowly embedded here over a small model of JavaScript
values.  JavaScript semantics relevant to the source are modelled explicitly:

* truthiness (`!x`, `x || d`, `x ? a : b`);
* property access (`obj.field`), which yields `undefined` for a missing
  property on an object / primitive and throws a `TypeError` when the
  receiver is `null` or `undefined`;
* string coercion (template interpolation, `ToString`): numbers print
  decimally, arrays join their coerced elements with commas (with `null`
  and `undefined` elements coerced to the empty string), plain objects
  coerce to "[object Object]";
* `new Date(v)`: a number is taken as a time value (clipped to the
  ±8.64e15 ms range), a string is parsed against the ECMAScript ISO 8601
  grammar (modelled here for the forms YYYY, YYYY-MM, YYYY-MM-DD,
  YYYY-MM-DDTHH:MM and YYYY-MM-DDTHH:MM:SS; implementation-defined
  non-ISO parsing is not modelled), and other inputs are coerced via
  ToPrimitive.  `new Date` never throws: unparseable input yields an
  Invalid Date (a NaN time value), modelled as `none`;
* `Date.prototype.toLocaleString` applied to an Invalid Date returns the
  string "Invalid Date" (ECMA-402); on a valid date with the source's
  options and the de-DE locale it renders "DD.MM.YYYY, HH:MM".  The host
  timezone is modelled as UTC (the exact local rendering of a valid date
  is not load-bearing for any property below).

The HTML strings assembled by `_render` are abstracted to their semantic
content, the spec's `RenderedView` tagged variant: which of the three card
bodies is produced, and, per incident row, exactly the values interpolated
into the row template (theme, keyword, vehicles, optional unit line,
formatted time).
-/

/-- A JavaScript value, as far as the card manipulates them. -/
inductive JSVal where
  | undefined : JSVal
  | null : JSVal
  | bool : Bool → JSVal
  | num : Int → JSVal
  | str : String → JSVal
  | arr : List JSVal → JSVal
  | obj : List (String × JSVal) → JSVal
deriving Repr

/-- JavaScript truthiness: `undefined`, `null`, `false`, `0` and `""` are
falsy; every other value (in particular every array and object) is truthy. -/
def truthy : JSVal → Bool
  | .undefined => false
  | .null => false
  | .bool b => b
  | .num n => n != 0
  | .str s => s != ""
  | .arr _ => true
  | .obj _ => true

/-- First-match lookup in an association list of object fields. -/
def lookupField : List (String × JSVal) → String → Option JSVal
  | [], _ => none
  | (k, v) :: rest, key => if k = key then some v else lookupField rest key

/-- JavaScript property access `v.key`: throws a TypeError on `null` and
`undefined`, yields the field (or `undefined`) on objects, exposes `length`
on arrays and strings, and yields `undefined` on other primitives.  The
keys the renderer reads with it — `attributes`, `einsaetze`, the incident
fields and `length` — are not `Object.prototype` members, so the prototype
chain contributes nothing here; the `types` table lookup in `_getTypeInfo`
is the one read where the chain matters, and it is modelled there. -/
def getProp : JSVal → String → Except String JSVal
  | .null, _ => .error "TypeError: cannot read properties of null"
  | .undefined, _ => .error "TypeError: cannot read properties of undefined"
  | .obj fields, key => .ok ((lookupField fields key).getD .undefined)
  | .arr xs, key => .ok (if key = "length" then .num xs.length else .undefined)
  | .str s, key => .ok (if key = "length" then .num s.length else .undefined)
  | _, _ => .ok .undefined

/-- The strict comparison `v === 0` used by the source's empty check. -/
def isStrictZero : JSVal → Bool
  | .num n => n == 0
  | _ => false

mutual

/-- JavaScript string coercion (ToString) of the modelled values. -/
def jsToString : JSVal → String
  | .undefined => "undefined"
  | .null => "null"
  | .bool b => cond b "true" "false"
  | .num n => toString n
  | .str s => s
  | .arr xs => String.intercalate "," (jsToStringList xs)
  | .obj _ => "[object Object]"

/-- Element-wise coercion used by `Array.prototype.toString` (a join with
","): `null` and `undefined` elements become the empty string. -/
def jsToStringList : List JSVal → List String
  | [] => []
  | .undefined :: xs => "" :: jsToStringList xs
  | .null :: xs => "" :: jsToStringList xs
  | x :: xs => jsToString x :: jsToStringList xs

end

/-! ## `_getTypeInfo` (lines 57–81 of the source) -/

/-- The icon/color/background theme resolved per incident type. -/
structure TypeInfo where
  icon : String
  color : String
  bgColor : String
deriving Repr, DecidableEq

/-- The `fire` entry of the source's theme table. -/
def fireInfo : TypeInfo :=
  { icon := "mdi:fire", color := "#ef4444", bgColor := "rgba(239, 68, 68, 0.15)" }

/-- The `technical` entry of the source's theme table. -/
def technicalInfo : TypeInfo :=
  { icon := "mdi:car-emergency", color := "#3b82f6", bgColor := "rgba(59, 130, 246, 0.15)" }

/-- The `hazmat` entry of the source's theme table. -/
def hazmatInfo : TypeInfo :=
  { icon := "mdi:hazard-lights", color := "#f59e0b", bgColor := "rgba(245, 158, 11, 0.15)" }

/-- The fallback theme returned by `types[type] || {...}`. -/
def fallbackInfo : TypeInfo :=
  { icon := "mdi:alert-circle", color := "#6b7280", bgColor := "rgba(107, 114, 128, 0.15)" }

/-- The property keys a plain object literal inherits from
`Object.prototype` (the standard members plus the universally implemented
Annex B accessors).  Reading any of them on the `types` table yields a
truthy function or object, never `undefined`. -/
def objectPrototypeKeys : List String :=
  ["constructor", "hasOwnProperty", "isPrototypeOf", "propertyIsEnumerable",
   "toLocaleString", "toString", "valueOf", "__proto__",
   "__defineGetter__", "__defineSetter__", "__lookupGetter__",
   "__lookupSetter__"]

/-- What `types[type] || {...}` can evaluate to: a theme object (an own
entry of the table, or the `||` fallback), or a truthy member inherited
from `Object.prototype` — `types` is a plain object literal, so a lookup
that misses its three own keys walks the prototype chain, and an inherited
hit is truthy, so `||` keeps it and the fallback is NOT supplied. -/
inductive ThemeLookup where
  | theme : TypeInfo → ThemeLookup
  | inherited : String → ThemeLookup
deriving Repr, DecidableEq

/-- `typeInfo.icon` as interpolated by the row template: an inherited
member (a function, or `Object.prototype` itself for `__proto__`) has no
`icon` property, so the read yields `undefined`, which the template
coerces to the string "undefined". -/
def ThemeLookup.icon : ThemeLookup → String
  | .theme i => i.icon
  | .inherited _ => "undefined"

/-- `typeInfo.color` as interpolated by the row template. -/
def ThemeLookup.color : ThemeLookup → String
  | .theme i => i.color
  | .inherited _ => "undefined"

/-- `typeInfo.bgColor` as interpolated by the row template. -/
def ThemeLookup.bgColor : ThemeLookup → String
  | .theme i => i.bgColor
  | .inherited _ => "undefined"

/-- `_getTypeInfo(type)`: the lookup `types[type]` coerces the key to a
string (ToPropertyKey).  An own-key hit returns the table entry (truthy,
so `||` keeps it); a miss that lands on an `Object.prototype` member name
returns that truthy inherited member (so `||` keeps it too); only a
genuine miss yields `undefined`, letting `||` supply the fallback theme. -/
def _getTypeInfo (t : JSVal) : ThemeLookup :=
  let key := jsToString t
  if key = "fire" then .theme fireInfo
  else if key = "technical" then .theme technicalInfo
  else if key = "hazmat" then .theme hazmatInfo
  else if key ∈ objectPrototypeKeys then .inherited key
  else .theme fallbackInfo

/-! ## `_formatTime` (lines 40–54 of the source)

Proleptic-Gregorian day arithmetic (standard civil-days conversions) models
the time value ↔ calendar field correspondence used by `Date`. -/

/-- Gregorian leap-year test. -/
def isLeap (y : Nat) : Bool := (y % 4 == 0 && y % 100 != 0) || y % 400 == 0

/-- Days in a month of the Gregorian calendar. -/
def daysInMonth (y mo : Nat) : Nat :=
  if mo = 2 then (if isLeap y then 29 else 28)
  else if mo = 4 ∨ mo = 6 ∨ mo = 9 ∨ mo = 11 then 30
  else 31

/-- Days since the Unix epoch of a civil date (year, month 1–12, day). -/
def daysFromCivil (y mo da : Nat) : Int :=
  let yAdj : Int := (y : Int) - (if mo ≤ 2 then 1 else 0)
  let era : Int := Int.fdiv yAdj 400
  let yoe : Int := yAdj - era * 400
  let mp : Int := ((mo : Int) + 9) % 12
  let doy : Int := (153 * mp + 2) / 5 + (da : Int) - 1
  let doe : Int := yoe * 365 + yoe / 4 - yoe / 100 + doy
  era * 146097 + doe - 719468

/-- Civil date (year, month, day) of a count of days since the Unix epoch. -/
def civilFromDays (z0 : Int) : Int × Int × Int :=
  let z : Int := z0 + 719468
  let era : Int := Int.fdiv z 146097
  let doe : Int := z - era * 146097
  let yoe : Int := (doe - doe / 1460 + doe / 36524 - doe / 146096) / 365
  let y : Int := yoe + era * 400
  let doy : Int := doe - (365 * yoe + yoe / 4 - yoe / 100)
  let mp : Int := (5 * doy + 2) / 153
  let da : Int := doy - (153 * mp + 2) / 5 + 1
  let m : Int := mp + (if mp < 10 then 3 else -9)
  (y + (if m ≤ 2 then 1 else 0), m, da)

/-- Two decimal digits to a number, when both characters are digits. -/
def twoDigits (a b : Char) : Option Nat :=
  if a.isDigit && b.isDigit then some ((a.toNat - 48) * 10 + (b.toNat - 48)) else none

/-- Four decimal digits to a number, when all characters are digits. -/
def fourDigits (a b c d : Char) : Option Nat :=
  if a.isDigit && b.isDigit && c.isDigit && d.isDigit then
    some (((a.toNat - 48) * 10 + (b.toNat - 48)) * 100 + (c.toNat - 48) * 10 + (d.toNat - 48))
  else none

/-- Millisecond time value of validated calendar fields; `none` when a field
is out of range (the ECMAScript ISO parse rejects such strings). -/
def mkDateMillis (y mo da hh mi ss : Nat) : Option Int :=
  if 1 ≤ mo ∧ mo ≤ 12 ∧ 1 ≤ da ∧ da ≤ daysInMonth y mo ∧ hh ≤ 23 ∧ mi ≤ 59 ∧ ss ≤ 59 then
    some (daysFromCivil y mo da * 86400000 + ((hh * 3600000 + mi * 60000 + ss * 1000 : Nat) : Int))
  else none

/-- ECMAScript ISO 8601 date-string parse (the modelled forms; see the
header comment).  Any other string is an Invalid Date, i.e. `none`. -/
def parseDateString (s : String) : Option Int :=
  match s.toList with
  | [a, b, c, d] => do
      let y ← fourDigits a b c d
      mkDateMillis y 1 1 0 0 0
  | [a, b, c, d, '-', e, f] => do
      let y ← fourDigits a b c d
      let mo ← twoDigits e f
      mkDateMillis y mo 1 0 0 0
  | [a, b, c, d, '-', e, f, '-', g, h] => do
      let y ← fourDigits a b c d
      let mo ← twoDigits e f
      let da ← twoDigits g h
      mkDateMillis y mo da 0 0 0
  | [a, b, c, d, '-', e, f, '-', g, h, 'T', i, j, ':', k, l] => do
      let y ← fourDigits a b c d
      let mo ← twoDigits e f
      let da ← twoDigits g h
      let hh ← twoDigits i j
      let mi ← twoDigits k l
      mkDateMillis y mo da hh mi 0
  | [a, b, c, d, '-', e, f, '-', g, h, 'T', i, j, ':', k, l, ':', m, n] => do
      let y ← fourDigits a b c d
      let mo ← twoDigits e f
      let da ← twoDigits g h
      let hh ← twoDigits i j
      let mi ← twoDigits k l
      let ss ← twoDigits m n
      mkDateMillis y mo da hh mi ss
  | _ => none

/-- The time value of `new Date(v)`: `none` is an Invalid Date (NaN).
`new Date` itself never throws for these inputs. -/
def jsDateTimeValue : JSVal → Option Int
  | .num n => if n.natAbs ≤ 8640000000000000 then some n else none
  | .str s => parseDateString s
  | .bool b => some (cond b 1 0)
  | .null => some 0
  | .undefined => none
  | .arr xs => parseDateString (jsToString (.arr xs))
  | .obj _ => none

/-- Left-pad a number below 100 to two digits. -/
def pad2 (n : Nat) : String := if n < 10 then "0" ++ toString n else toString n

/-- `toLocaleString('de-DE', {day, month, year, hour, minute})` of a valid
time value, with the host timezone modelled as UTC. -/
def formatDeDE (t : Int) : String :=
  let days : Int := Int.fdiv t 86400000
  let msOfDay : Nat := (t - days * 86400000).toNat
  let c := civilFromDays days
  let hh : Nat := msOfDay / 3600000
  let mi : Nat := msOfDay % 3600000 / 60000
  pad2 c.2.2.toNat ++ "." ++ pad2 c.2.1.toNat ++ "." ++ toString c.1 ++ ", " ++
    pad2 hh ++ ":" ++ pad2 mi

/-- `_formatTime(timestamp)`.  A falsy timestamp returns `""` at once.
Otherwise `new Date(timestamp)` is built — never throwing — and rendered
with `toLocaleString`, which returns "Invalid Date" for an Invalid Date
(ECMA-402).  Because neither step throws, the source's `catch` branch
(`return String(timestamp)`) is unreachable: no input reaches it. -/
def _formatTime (timestamp : JSVal) : String :=
  if truthy timestamp = false then ""
  else
    match jsDateTimeValue timestamp with
    | none => "Invalid Date"
    | some t => formatDeDE t

/-! ## `_render` (lines 84–178 of the source) -/

/-- The card configuration held in `this._config` (after `setConfig`, both
fields are strings; `_render` re-applies the `||` defaults itself). -/
structure Config where
  entity : String
  title : String
deriving Repr, DecidableEq

/-- `this._config.entity || 'sensor.letzte_einsatze'` (a string is falsy
exactly when empty). -/
def resolveEntity (c : Config) : String :=
  if c.entity = "" then "sensor.letzte_einsatze" else c.entity

/-- `this._config.title || 'Letzte Einsätze'`. -/
def resolveTitle (c : Config) : String :=
  if c.title = "" then "Letzte Einsätze" else c.title

/-- The `hass.states` object, as the (total) map its property lookup
realizes: entity id → state object, with `undefined` for missing ids. -/
abbrev HassStates := String → JSVal

/-- `this._hass.states[entityId]`. -/
def lookupState (states : HassStates) (entityId : String) : JSVal :=
  states entityId

/-- One rendered incident row: exactly the values interpolated into the
source's row template. -/
structure RenderedRow where
  theme : ThemeLookup
  keyword : String
  vehicles : String
  unitLine : Option String
  formattedTime : String
deriving Repr, DecidableEq

/-- The spec's tagged output variant: the three card bodies `_render` can
assign to `innerHTML`. -/
inductive RenderedView where
  | errorView : String → String → RenderedView
  | emptyView : String → RenderedView
  | listView : String → List RenderedRow → RenderedView
deriving Repr, DecidableEq

/-- Outcome of one `_render` call that did not throw: either no output
(the early `if (!this._hass) return`) or a view written to `innerHTML`. -/
inductive RenderOutput where
  | noOutput : RenderOutput
  | view : RenderedView → RenderOutput
deriving Repr, DecidableEq

/-- The `einsaetze.map((einsatz) => ...)` callback body: per-incident
property reads (in source order: `type`, `keyword`, `vehicles`,
`timestamp`, `unit`), theme resolution, falsy-triggered fallback
substitution, time formatting, and the `${unit ? ... : ''}` unit line. -/
def renderEinsatz (einsatz : JSVal) : Except String RenderedRow := do
  let ty ← getProp einsatz "type"
  let typeInfo := _getTypeInfo ty
  let kw ← getProp einsatz "keyword"
  let keyword := if truthy kw then jsToString kw else "Unbekannt"
  let vh ← getProp einsatz "vehicles"
  let vehicles := if truthy vh then jsToString vh else "Keine Fahrzeuge"
  let ts ← getProp einsatz "timestamp"
  let timeStr := _formatTime ts
  let un ← getProp einsatz "unit"
  let unitLine := if truthy un then some (jsToString un) else none
  .ok { theme := typeInfo, keyword := keyword, vehicles := vehicles,
        unitLine := unitLine, formattedTime := timeStr }

/-- `Array.prototype.map`: the callback runs left to right and the first
exception aborts the whole map. -/
def mapOk (f : JSVal → Except String RenderedRow) :
    List JSVal → Except String (List RenderedRow)
  | [] => .ok []
  | x :: xs =>
    match f x with
    | .error e => .error e
    | .ok r =>
      match mapOk f xs with
      | .error e => .error e
      | .ok rs => .ok (r :: rs)

/-- The tail of `_render` from `const einsaetze = stateObj.attributes.einsaetze || []`
onward: the `|| []` default, the `length === 0` empty check, and the
row-building `map`. -/
def renderTail (title : String) (einsRaw : JSVal) : Except String RenderOutput :=
  let einsaetze := if truthy einsRaw then einsRaw else .arr []
  match getProp einsaetze "length" with
  | .error e => .error e
  | .ok len =>
    if isStrictZero len then .ok (.view (.emptyView title))
    else
      match einsaetze with
      | .arr xs =>
        match mapOk renderEinsatz xs with
        | .error e => .error e
        | .ok rows => .ok (.view (.listView title rows))
      | _ => .error "TypeError: einsaetze.map is not a function"

/-- `_render()`, as a function of the fields it reads (`this._config`,
`this._hass`).  `.error` is a thrown JavaScript exception escaping the
call; `.ok` carries what the call does to `innerHTML`. -/
def _render (config : Config) (hassOpt : Option HassStates) :
    Except String RenderOutput :=
  match hassOpt with
  | none => .ok .noOutput
  | some states =>
    let entityId := resolveEntity config
    let title := resolveTitle config
    let stateObj := lookupState states entityId
    if truthy stateObj = false then .ok (.view (.errorView title entityId))
    else
      match getProp stateObj "attributes" with
      | .error e => .error e
      | .ok attrs =>
        match getProp attrs "einsaetze" with
        | .error e => .error e
        | .ok einsRaw => renderTail title einsRaw

/-- The component's mutable fields read or written by a render: the
configuration, the last received `hass`, and the `innerHTML` sink. -/
structure Card where
  config : Config
  hass : Option HassStates
  innerHTML : Option RenderedView

/-- One `_render()` call as a state transformer: a produced view replaces
`innerHTML` wholesale; the no-`hass` early return and a thrown exception
(raised while mapping, before the `innerHTML` assignment) leave the card
unchanged. -/
def renderStep (c : Card) : Card :=
  match _render c.config c.hass with
  | .ok (.view v) => { c with innerHTML := some v }
  | .ok .noOutput => c
  | .error _ => c

/-- The `set hass(hass)` accessor: store the new context, then re-render. -/
def setHass (c : Card) (h : Option HassStates) : Card :=
  renderStep { c with hass := h }

/-! ## The spec's structured snapshot, mapped onto the JS state object -/

/-- The spec's `IncidentRecord`: five optional fields.  A present field may
hold any JavaScript value (the attribute payload is externally supplied). -/
structure IncidentRecord where
  type : Option JSVal
  keyword : Option JSVal
  vehicles : Option JSVal
  unit : Option JSVal
  timestamp : Option JSVal

/-- A field that is `none` is simply absent from the underlying object
(property access then yields `undefined`). -/
def optField (key : String) : Option JSVal → List (String × JSVal)
  | none => []
  | some v => [(key, v)]

/-- The state-object representation of an incident record. -/
def IncidentRecord.toJS (i : IncidentRecord) : JSVal :=
  .obj (optField "type" i.type ++ optField "keyword" i.keyword ++
        optField "vehicles" i.vehicles ++ optField "unit" i.unit ++
        optField "timestamp" i.timestamp)

/-- The row `_render` assembles for an incident record (each property read
yields the field when present and `undefined` when absent). -/
def rowOfIncident (i : IncidentRecord) : RenderedRow :=
  let ty := i.type.getD .undefined
  let kw := i.keyword.getD .undefined
  let vh := i.vehicles.getD .undefined
  let ts := i.timestamp.getD .undefined
  let un := i.unit.getD .undefined
  { theme := _getTypeInfo ty,
    keyword := if truthy kw then jsToString kw else "Unbekannt",
    vehicles := if truthy vh then jsToString vh else "Keine Fahrzeuge",
    unitLine := if truthy un then some (jsToString un) else none,
    formattedTime := _formatTime ts }

/-- A `hass.states` map holding, under the given entity id, a well-formed
state object whose `einsaetze` attribute is the given value. -/
def mkStates (entityId : String) (eins : JSVal) : HassStates :=
  fun id => if id = entityId then .obj [("attributes", .obj [("einsaetze", eins)])] else .undefined

/-- The `einsaetze` attribute values on which the non-error render paths
are total: a falsy value (replaced by `[]`) or an array none of whose
elements is `null` or `undefined`. -/
def safeEinsaetze : JSVal → Prop
  | .arr xs => ∀ x ∈ xs, x ≠ JSVal.null ∧ x ≠ JSVal.undefined
  | v => truthy v = false

/-- The default configuration produced by `setConfig` with no options. -/
def cfgDefault : Config :=
  { entity := "sensor.letzte_einsatze", title := "Letzte Einsätze" }

/-- A `hass.states` map with no entities at all. -/
def emptyStates : HassStates := fun _ => .undefined

/-- The spec's optional type tag, as the JS value the `type` property read
yields: the string itself, or `undefined` when absent. -/
def optStrToJS : Option String → JSVal
  | none => .undefined
  | some s => .str s

/-- The spec's §8 scenario incident: fire type, keyword "B2", vehicles
"HLF20, TLF", unit "Wache1", a parseable timestamp. -/
def sampleIncident : IncidentRecord :=
  { type := some (.str "fire"), keyword := some (.str "B2"),
    vehicles := some (.str "HLF20, TLF"), unit := some (.str "Wache1"),
    timestamp := some (.str "2024-03-01T12:05") }

/-- An incident whose keyword and vehicles are present but falsy (empty
strings) and whose timestamp is the falsy number 0. -/
def falsyIncident : IncidentRecord :=
  { type := none, keyword := some (.str ""), vehicles := some (.str ""),
    unit := none, timestamp := some (.num 0) }

/-- An incident with every field absent. -/
def bareIncident : IncidentRecord :=
  { type := none, keyword := none, vehicles := none, unit := none,
    timestamp := none }

/-! ## Helper lemmas -/

/-- Property access on a value other than `null`/`undefined` never throws. -/
theorem getProp_ok (v : JSVal) (key : String) (h1 : v ≠ JSVal.null)
    (h2 : v ≠ JSVal.undefined) : ∃ r, getProp v key = .ok r := by
  cases v with
  | null => exact absurd rfl h1
  | undefined => exact absurd rfl h2
  | bool b => exact ⟨_, rfl⟩
  | num n => exact ⟨_, rfl⟩
  | str s => exact ⟨_, rfl⟩
  | arr xs => exact ⟨_, rfl⟩
  | obj fs => exact ⟨_, rfl⟩

/-- The row callback succeeds on every incident value that is not `null`
or `undefined`. -/
theorem renderEinsatz_ok (x : JSVal) (h1 : x ≠ JSVal.null)
    (h2 : x ≠ JSVal.undefined) : ∃ r, renderEinsatz x = .ok r := by
  cases x with
  | null => exact absurd rfl h1
  | undefined => exact absurd rfl h2
  | bool b => exact ⟨_, rfl⟩
  | num n => exact ⟨_, rfl⟩
  | str s => exact ⟨_, rfl⟩
  | arr xs => exact ⟨_, rfl⟩
  | obj fs => exact ⟨_, rfl⟩

/-- The row map succeeds when no element is `null` or `undefined`. -/
theorem mapOk_ok (xs : List JSVal)
    (h : ∀ x ∈ xs, x ≠ JSVal.null ∧ x ≠ JSVal.undefined) :
    ∃ rs, mapOk renderEinsatz xs = .ok rs := by
  induction xs with
  | nil => exact ⟨[], rfl⟩
  | cons x rest ih =>
    obtain ⟨hx1, hx2⟩ := h x (List.mem_cons_self x rest)
    obtain ⟨r, hr⟩ := renderEinsatz_ok x hx1 hx2
    obtain ⟨rs, hrs⟩ := ih (fun y hy => h y (List.mem_cons_of_mem x hy))
    exact ⟨r :: rs, by simp [mapOk, hr, hrs]⟩

/-- On the object form of an incident record, the callback computes
exactly `rowOfIncident`. -/
theorem renderEinsatz_toJS (i : IncidentRecord) :
    renderEinsatz i.toJS = .ok (rowOfIncident i) := by
  obtain ⟨t, kw, vh, un, ts⟩ := i
  cases t <;> cases kw <;> cases vh <;> cases un <;> cases ts <;> rfl

/-- Mapping the callback over encoded records yields their rows, in order. -/
theorem mapOk_map_toJS (l : List IncidentRecord) :
    mapOk renderEinsatz (l.map IncidentRecord.toJS) = .ok (l.map rowOfIncident) := by
  induction l with
  | nil => rfl
  | cons i rest ih => simp [List.map, mapOk, renderEinsatz_toJS, ih]

/-- A falsy state object takes the entity-not-found branch. -/
theorem render_not_found (cfg : Config) (states : HassStates)
    (h : truthy (states (resolveEntity cfg)) = false) :
    _render cfg (some states) =
      .ok (.view (.errorView (resolveTitle cfg) (resolveEntity cfg))) := by
  simp [_render, lookupState, h]

/-- A well-formed state object reduces `_render` to `renderTail` on its
`einsaetze` attribute. -/
theorem render_found (cfg : Config) (states : HassStates) (eins : JSVal)
    (h : states (resolveEntity cfg) =
      .obj [("attributes", .obj [("einsaetze", eins)])]) :
    _render cfg (some states) = renderTail (resolveTitle cfg) eins := by
  simp [_render, lookupState, h, truthy, getProp, lookupField]

/-- A falsy `einsaetze` attribute is replaced by `[]` and renders the
empty state. -/
theorem renderTail_falsy (title : String) (eins : JSVal)
    (h : truthy eins = false) :
    renderTail title eins = .ok (.view (.emptyView title)) := by
  simp [renderTail, h, getProp, isStrictZero]

/-- On an encoded record list, the tail renders the empty state for `[]`
and otherwise one row per record, in input order. -/
theorem renderTail_records (title : String) (l : List IncidentRecord) :
    renderTail title (.arr (l.map IncidentRecord.toJS)) =
      .ok (.view (if l.isEmpty then .emptyView title
        else .listView title (l.map rowOfIncident))) := by
  cases l with
  | nil => rfl
  | cons i rest =>
    have h2 := mapOk_map_toJS (i :: rest)
    simp only [List.map] at h2
    simp [renderTail, truthy, getProp, isStrictZero, List.isEmpty]
    rw [if_neg (by omega), h2]

/-! ## Claim theorems -/

/-- Claim C2 (code bug): `_formatTime` does return `""` for an absent
timestamp and never throws, but a present value that is unparseable as a
date does NOT come back unchanged.  `new Date('not-a-date')` does not
throw — it yields an Invalid Date — so the source's `catch` (the intended
`return String(timestamp)` path) is unreachable, and `toLocaleString`
renders the Invalid Date as the string "Invalid Date", not as the original
"not-a-date". -/
theorem formatTime_unparseable_not_raw :
    _formatTime .undefined = "" ∧
    _formatTime (.str "not-a-date") = "Invalid Date" ∧
    _formatTime (.str "not-a-date") ≠ "not-a-date" :=
  ⟨rfl, rfl, by decide⟩

/-- Claim C3 is refuted as stated: `types` is a plain object literal, so
`types[type]` walks the prototype chain, and the unrecognized tag
"constructor" hits the truthy inherited `Object.prototype.constructor` —
`||` keeps it, the designated fallback theme is NOT returned, and the
result is not a theme object at all. -/
theorem classify_inherited_counterexample :
    ((some "constructor" : Option String) ≠ some "fire" ∧
     (some "constructor" : Option String) ≠ some "technical" ∧
     (some "constructor" : Option String) ≠ some "hazmat") ∧
    _getTypeInfo (optStrToJS (some "constructor")) = .inherited "constructor" ∧
    _getTypeInfo (optStrToJS (some "constructor")) ≠ .theme fallbackInfo :=
  ⟨⟨by decide, by decide, by decide⟩, rfl, by decide⟩

/-- Claim C3 (amended): `_getTypeInfo` is total on every possible type tag
(any string, or absence) and resolves to exactly one value: one of the
three recognized themes, the fallback theme, or — for the
`Object.prototype` member names — the truthy inherited member.  An absent
tag, and every unrecognized tag that is not an `Object.prototype` member
name, yields the single designated fallback theme. -/
theorem classify_total_amended (t : Option String) :
    (_getTypeInfo (optStrToJS t) = .theme fireInfo ∨
     _getTypeInfo (optStrToJS t) = .theme technicalInfo ∨
     _getTypeInfo (optStrToJS t) = .theme hazmatInfo ∨
     _getTypeInfo (optStrToJS t) = .theme fallbackInfo ∨
     (∃ s, t = some s ∧ s ∈ objectPrototypeKeys ∧
       _getTypeInfo (optStrToJS t) = .inherited s)) ∧
    ((t ≠ some "fire" ∧ t ≠ some "technical" ∧ t ≠ some "hazmat" ∧
      (∀ s, t = some s → s ∉ objectPrototypeKeys)) →
      _getTypeInfo (optStrToJS t) = .theme fallbackInfo) := by
  cases t with
  | none => exact ⟨Or.inr (Or.inr (Or.inr (Or.inl rfl))), fun _ => rfl⟩
  | some s =>
    by_cases h1 : s = "fire"
    · subst h1
      exact ⟨Or.inl rfl, fun h => absurd rfl h.1⟩
    · by_cases h2 : s = "technical"
      · subst h2
        exact ⟨Or.inr (Or.inl rfl), fun h => absurd rfl h.2.1⟩
      · by_cases h3 : s = "hazmat"
        · subst h3
          exact ⟨Or.inr (Or.inr (Or.inl rfl)), fun h => absurd rfl h.2.2.1⟩
        · by_cases h4 : s ∈ objectPrototypeKeys
          · refine ⟨Or.inr (Or.inr (Or.inr (Or.inr ⟨s, rfl, h4, ?_⟩))),
              fun h => absurd h4 (h.2.2.2 s rfl)⟩
            simp [_getTypeInfo, optStrToJS, jsToString, h1, h2, h3, h4]
          · have hf : _getTypeInfo (optStrToJS (some s)) = .theme fallbackInfo := by
              simp [_getTypeInfo, optStrToJS, jsToString, h1, h2, h3, h4]
            exact ⟨Or.inr (Or.inr (Or.inr (Or.inl hf))), fun _ => hf⟩

/-- Witness for the amended C3: the absent tag and the unrecognized
non-prototype tag "unknown" both resolve to the fallback theme. -/
theorem classify_total_amended_witness :
    _getTypeInfo (optStrToJS none) = .theme fallbackInfo ∧
    _getTypeInfo (optStrToJS (some "unknown")) = .theme fallbackInfo := by
  constructor
  · exact (classify_total_amended none).2
      ⟨by decide, by decide, by decide, fun s hs => Option.noConfusion hs⟩
  · exact (classify_total_amended (some "unknown")).2
      ⟨by decide, by decide, by decide, fun s hs => by cases hs; decide⟩

/-- Claim C8: each recognized type tag resolves to a theme whose primary
color and background tint differ from the fallback theme's, so the
fallback stays visually distinguishable as unclassified and no recognized
type shares the fallback colors. -/
theorem recognized_colors_distinct_from_fallback :
    (_getTypeInfo (.str "fire")).color ≠ fallbackInfo.color ∧
    (_getTypeInfo (.str "fire")).bgColor ≠ fallbackInfo.bgColor ∧
    (_getTypeInfo (.str "technical")).color ≠ fallbackInfo.color ∧
    (_getTypeInfo (.str "technical")).bgColor ≠ fallbackInfo.bgColor ∧
    (_getTypeInfo (.str "hazmat")).color ≠ fallbackInfo.color ∧
    (_getTypeInfo (.str "hazmat")).bgColor ≠ fallbackInfo.bgColor := by
  decide

/-- Claim C9: fallback substitution is triggered by falsiness, not only
absence: an empty-string keyword still renders "Unbekannt", an
empty-string vehicles still renders "Keine Fahrzeuge", and the falsy
timestamps `0` and `""` make `_formatTime` return `""`. -/
theorem falsy_triggers_fallbacks (i : IncidentRecord) :
    (i.keyword = some (.str "") → (rowOfIncident i).keyword = "Unbekannt") ∧
    (i.vehicles = some (.str "") → (rowOfIncident i).vehicles = "Keine Fahrzeuge") ∧
    _formatTime (.num 0) = "" ∧ _formatTime (.str "") = "" := by
  refine ⟨fun h => ?_, fun h => ?_, rfl, rfl⟩
  · simp [rowOfIncident, h, truthy]
  · simp [rowOfIncident, h, truthy]

/-- Witness for C9, on an incident with empty-string keyword and vehicles. -/
theorem falsy_triggers_fallbacks_witness :
    (rowOfIncident falsyIncident).keyword = "Unbekannt" ∧
    (rowOfIncident falsyIncident).vehicles = "Keine Fahrzeuge" ∧
    _formatTime (.num 0) = "" :=
  ⟨(falsy_triggers_fallbacks falsyIncident).1 rfl,
   (falsy_triggers_fallbacks falsyIncident).2.1 rfl,
   (falsy_triggers_fallbacks falsyIncident).2.2.1⟩

/-- Claim C4: whenever the configured entity does not resolve (the state
lookup is falsy — `sourceFound = false`), `_render` produces the error
view, carrying the configured entity identifier that could not be
resolved, regardless of anything else in the state. -/
theorem render_source_not_found (cfg : Config) (states : HassStates)
    (h : truthy (states (resolveEntity cfg)) = false) :
    _render cfg (some states) =
      .ok (.view (.errorView (resolveTitle cfg) (resolveEntity cfg))) :=
  render_not_found cfg states h

/-- Witness for C4: a configured entity "sensor.x" absent from an empty
state map yields the error view naming "sensor.x". -/
theorem render_source_not_found_witness :
    truthy (emptyStates (resolveEntity { entity := "sensor.x", title := "" })) = false ∧
    _render { entity := "sensor.x", title := "" } (some emptyStates) =
      .ok (.view (.errorView "Letzte Einsätze" "sensor.x")) :=
  ⟨rfl, render_source_not_found { entity := "sensor.x", title := "" } emptyStates rfl⟩

/-- Claim C10: when the entity resolves (`sourceFound = true`) but the
`einsaetze` attribute is absent (`undefined`) or otherwise falsy, the
`|| []` default treats the incident list as empty and `_render` produces
the empty view — never an error. -/
theorem render_missing_incidents_empty (cfg : Config) (states : HassStates)
    (eins : JSVal)
    (hstate : states (resolveEntity cfg) =
      .obj [("attributes", .obj [("einsaetze", eins)])])
    (hfalsy : truthy eins = false) :
    _render cfg (some states) = .ok (.view (.emptyView (resolveTitle cfg))) :=
  (render_found cfg states eins hstate).trans (renderTail_falsy _ eins hfalsy)

/-- Witness for C10: a state object with no `einsaetze` attribute value
(the property read yields `undefined`) renders the empty view. -/
theorem render_missing_incidents_empty_witness :
    truthy JSVal.undefined = false ∧
    _render cfgDefault (some (mkStates "sensor.letzte_einsatze" .undefined)) =
      .ok (.view (.emptyView "Letzte Einsätze")) :=
  ⟨rfl, render_missing_incidents_empty cfgDefault
    (mkStates "sensor.letzte_einsatze" .undefined) .undefined rfl rfl⟩

/-- Claim C5: for a snapshot whose entity resolves to a well-formed state
object carrying an incident-record list: an empty list renders the empty
view, and a non-empty list renders the list view with exactly one row per
incident, in input order (`rowOfIncident` mapped over the list — no
sorting, filtering or deduplication), so the row count equals the
incident count. -/
theorem render_rows_in_order (cfg : Config) (states : HassStates)
    (incidents : List IncidentRecord)
    (h : states (resolveEntity cfg) = .obj [("attributes",
      .obj [("einsaetze", .arr (incidents.map IncidentRecord.toJS))])]) :
    _render cfg (some states) =
      .ok (.view (if incidents.isEmpty then .emptyView (resolveTitle cfg)
        else .listView (resolveTitle cfg) (incidents.map rowOfIncident))) ∧
    (incidents.map rowOfIncident).length = incidents.length :=
  ⟨(render_found cfg states _ h).trans (renderTail_records _ incidents),
   incidents.length_map rowOfIncident⟩

/-- Witness for C5: the spec's §8 scenario snapshot — one fire incident —
renders a one-row list view with the fire theme, keyword "B2", vehicles
"HLF20, TLF", a unit line, and the formatted time. -/
theorem render_rows_in_order_witness :
    _render cfgDefault (some (mkStates "sensor.letzte_einsatze"
        (.arr ([sampleIncident].map IncidentRecord.toJS)))) =
      .ok (.view (.listView "Letzte Einsätze"
        [{ theme := .theme fireInfo, keyword := "B2", vehicles := "HLF20, TLF",
           unitLine := some "Wache1", formattedTime := "01.03.2024, 12:05" }])) ∧
    ([sampleIncident].map rowOfIncident).length = 1 := by
  have h := render_rows_in_order cfgDefault (mkStates "sensor.letzte_einsatze"
    (.arr ([sampleIncident].map IncidentRecord.toJS))) [sampleIncident] rfl
  exact ⟨h.1.trans (by rfl), h.2⟩

/-- Claim C6: per rendered row, the theme is resolved by `_getTypeInfo`
from the incident's `type`, the formatted time comes from `_formatTime` on
its `timestamp`, an absent keyword renders the literal "Unbekannt", absent
vehicles render "Keine Fahrzeuge", an absent unit suppresses the unit line
entirely, and for a string unit the line is included exactly when the
string is non-empty. -/
theorem row_assembly (i : IncidentRecord) :
    renderEinsatz i.toJS = .ok (rowOfIncident i) ∧
    (rowOfIncident i).theme = _getTypeInfo (i.type.getD .undefined) ∧
    (rowOfIncident i).formattedTime = _formatTime (i.timestamp.getD .undefined) ∧
    (i.keyword = none → (rowOfIncident i).keyword = "Unbekannt") ∧
    (i.vehicles = none → (rowOfIncident i).vehicles = "Keine Fahrzeuge") ∧
    (i.unit = none → (rowOfIncident i).unitLine = none) ∧
    (∀ s, i.unit = some (.str s) →
      (rowOfIncident i).unitLine = if s = "" then none else some s) := by
  refine ⟨renderEinsatz_toJS i, rfl, rfl, fun h => ?_, fun h => ?_,
    fun h => ?_, fun s h => ?_⟩
  · simp [rowOfIncident, h, truthy]
  · simp [rowOfIncident, h, truthy]
  · simp [rowOfIncident, h, truthy]
  · by_cases hs : s = "" <;> simp [rowOfIncident, h, truthy, jsToString, hs]

/-- Witness for C6: an incident with every field absent produces the
all-placeholder row (fallback theme, "Unbekannt", "Keine Fahrzeuge", no
unit line, empty time). -/
theorem row_assembly_witness :
    renderEinsatz bareIncident.toJS =
      .ok { theme := .theme fallbackInfo, keyword := "Unbekannt",
            vehicles := "Keine Fahrzeuge", unitLine := none,
            formattedTime := "" } ∧
    (rowOfIncident bareIncident).keyword = "Unbekannt" ∧
    (rowOfIncident bareIncident).vehicles = "Keine Fahrzeuge" ∧
    (rowOfIncident bareIncident).unitLine = none := by
  have h := row_assembly bareIncident
  exact ⟨h.1.trans (by rfl), h.2.2.2.1 rfl, h.2.2.2.2.1 rfl, h.2.2.2.2.2.1 rfl⟩

/-- Claim C7: rendering is deterministic and idempotent: a render never
changes the configuration or the snapshot context it reads, rendering
twice is the same as rendering once, and pushing the same `hass` snapshot
twice through the setter yields a structurally identical card. -/
theorem render_idempotent (c : Card) (h0 : Option HassStates) :
    renderStep (renderStep c) = renderStep c ∧
    (renderStep c).config = c.config ∧
    (renderStep c).hass = c.hass ∧
    setHass (setHass c h0) h0 = setHass c h0 := by
  have fields : ∀ d : Card,
      (renderStep d).config = d.config ∧ (renderStep d).hass = d.hass := by
    intro d
    cases hd : _render d.config d.hass with
    | error e => simp [renderStep, hd]
    | ok o =>
      cases o with
      | noOutput => simp [renderStep, hd]
      | view v => simp [renderStep, hd]
  have idem : ∀ d : Card, renderStep (renderStep d) = renderStep d := by
    intro d
    cases hd : _render d.config d.hass with
    | error e =>
      have h1 : renderStep d = d := by simp [renderStep, hd]
      rw [h1]; exact h1
    | ok o =>
      cases o with
      | noOutput =>
        have h1 : renderStep d = d := by simp [renderStep, hd]
        rw [h1]; exact h1
      | view v =>
        have h1 : renderStep d = { d with innerHTML := some v } := by
          simp [renderStep, hd]
        have h2 : _render ({ d with innerHTML := some v } : Card).config
            ({ d with innerHTML := some v } : Card).hass = .ok (.view v) := hd
        rw [h1]
        simp [renderStep, h2]
  have hupdate : ∀ (d : Card) (h : Option HassStates), d.hass = h →
      ({ d with hass := h } : Card) = d := by
    intro d h hdh
    cases d with
    | mk cf hs ih => exact congrArg (fun x => Card.mk cf x ih) hdh.symm
  have hset : setHass (setHass c h0) h0 = setHass c h0 := by
    show renderStep { setHass c h0 with hass := h0 } = setHass c h0
    rw [hupdate (setHass c h0) h0 ((fields { c with hass := h0 }).2)]
    exact idem { c with hass := h0 }
  exact ⟨idem c, (fields c).1, (fields c).2, hset⟩

/-- Claim C1 is refuted as stated: not every value of the incidents
attribute stays inside the three view variants.  With the entity present
and `einsaetze` the truthy non-array string "x", its `length` (1) is not
`=== 0`, so `_render` reaches `einsaetze.map`, which throws a TypeError
that escapes the component. -/
theorem render_throws_on_nonarray_incidents :
    _render cfgDefault (some (mkStates "sensor.letzte_einsatze" (.str "x"))) =
      .error "TypeError: einsaetze.map is not a function" := by
  rfl

/-- Claim C1 (amended): for every snapshot whose source-found flag is
arbitrary (any falsy state lookup, or a well-formed state object) and
whose incidents attribute is either falsy or an array none of whose
entries is `null`/`undefined` — the entries' fields may be arbitrarily
malformed values — `_render` throws no exception and produces one of the
three view variants. -/
theorem render_total_on_safe_snapshots (cfg : Config) (states : HassStates)
    (eins : JSVal)
    (hstate : truthy (states (resolveEntity cfg)) = false ∨
      states (resolveEntity cfg) =
        .obj [("attributes", .obj [("einsaetze", eins)])])
    (hsafe : safeEinsaetze eins) :
    ∃ v, _render cfg (some states) = .ok (.view v) := by
  rcases hstate with h | h
  · exact ⟨_, render_not_found cfg states h⟩
  · rw [render_found cfg states eins h]
    cases eins with
    | arr xs =>
      cases xs with
      | nil => exact ⟨.emptyView (resolveTitle cfg), rfl⟩
      | cons x rest =>
        obtain ⟨rs, hrs⟩ := mapOk_ok (x :: rest) hsafe
        refine ⟨.listView (resolveTitle cfg) rs, ?_⟩
        simp [renderTail, truthy, getProp, isStrictZero]
        rw [if_neg (by omega), hrs]
    | undefined => exact ⟨_, renderTail_falsy _ _ rfl⟩
    | null => exact ⟨_, renderTail_falsy _ _ rfl⟩
    | bool b => exact ⟨_, renderTail_falsy _ _ hsafe⟩
    | num n => exact ⟨_, renderTail_falsy _ _ hsafe⟩
    | str s => exact ⟨_, renderTail_falsy _ _ hsafe⟩
    | obj fs => simp [safeEinsaetze, truthy] at hsafe

/-- Witness for the amended C1: a snapshot whose single incident is an
empty object (every field malformed/absent) renders without exception. -/
theorem render_total_on_safe_snapshots_witness :
    safeEinsaetze (.arr [.obj []]) ∧
    (∃ v, _render cfgDefault
        (some (mkStates "sensor.letzte_einsatze" (.arr [.obj []]))) =
      .ok (.view v)) :=
  ⟨by simp [safeEinsaetze],
   render_total_on_safe_snapshots cfgDefault
     (mkStates "sensor.letzte_einsatze" (.arr [.obj []])) (.arr [.obj []])
     (Or.inr rfl) (by simp [safeEinsaetze])⟩
